import Mathlib

/-!
Verification of the analytical core of the `akillisayac` smart-meter
analytics repository: synthetic consumption generation (`src/data_utils.py`,
`simulate_consumption.py`), z-score anomaly detection (`src/anomaly.py`),
and forecast-driven recommendations (`src/recommend.py`).

Python/pandas floating-point arithmetic is embedded into exact rationals
(`ℚ`).  Where a float computation can produce a non-finite value (division
by zero yielding `inf`/`nan` in NumPy), the embedding makes that outcome
explicit with `Option`/`Except` rather than letting total rational division
silently return 0.
-/

namespace Akillisayac

/-! ## Anomaly detection — `src/anomaly.py`, `detect_anomalies`

The source computes, per column of the input DataFrame,
`z = (x - mean) / std` with pandas' sample standard deviation
(`ddof = 1`), and returns the boolean mask `z.abs() > threshold`.
Columns are processed independently, so we embed a single column as a
`List ℚ`.

`|z| > θ` is expressed without square roots: for `v = std²` (the sample
variance) and `d = x - mean`, when `v > 0` we have
`|d|/√v > θ ↔ (θ < 0 ∨ d² > θ²·v)`.  When `v = 0` (constant series, or a
series of length ≤ 1 where pandas yields `NaN`), the float z-score is
`NaN` (or `±inf` compared against θ only through `NaN` products of `0/0`),
and `NaN > θ` is `False` in pandas — so no point is flagged; the `0 < v`
conjunct captures exactly that. -/

def listSum (xs : List ℚ) : ℚ := xs.foldr (· + ·) 0

/-- Arithmetic mean; for the empty list pandas yields `NaN`, here 0 —
the claims below never depend on the empty-list value. -/
def mean (xs : List ℚ) : ℚ := listSum xs / (xs.length : ℚ)

/-- Sum of squared deviations from the mean. -/
def devSqSum (xs : List ℚ) : ℚ := listSum (xs.map (fun x => (x - mean xs) * (x - mean xs)))

/-- Pandas sample variance (`ddof = 1`): sum of squared deviations divided
by `n - 1`.  For `n ≤ 1` pandas yields `NaN`; the rational embedding
yields 0, which leads to the same all-false mask via the `0 < v` guard. -/
def sampleVar (xs : List ℚ) : ℚ := devSqSum xs / ((xs.length : ℚ) - 1)

/-- One entry of the anomaly mask: `|x - m| / √v > θ` under float
semantics, expressed square-free as explained above. -/
def anomalyFlag (θ m v x : ℚ) : Bool :=
  decide (0 < v) && (decide (θ < 0) || decide (θ * θ * v < (x - m) * (x - m)))

/-- `detect_anomalies` on one column: `z = (x - mean)/std(ddof=1)`,
mask `|z| > threshold`. -/
def detect_anomalies (θ : ℚ) (xs : List ℚ) : List Bool :=
  xs.map (anomalyFlag θ (mean xs) (sampleVar xs))

/-! ### C1 -/

/-- C1: the claim says `detect_anomalies` on the series `[0,0,0,10,0]`
with threshold 2.0 returns the mask `[false,false,false,true,false]`.
The code does not: pandas `std` is the sample standard deviation
(`ddof = 1`), so `std = √20 ≈ 4.472`, `z(10) = 8/√20 ≈ 1.789 ≤ 2`, and the
mask is all false — contradicting the repository's own test
`tests/test_anomaly.py::test_detect_anomalies_simple`, which asserts
exactly one flagged point at index 3.  This theorem evaluates the embedded
code at the failing input. -/
theorem detect_anomalies_example_all_false :
    detect_anomalies 2 [0, 0, 0, 10, 0] = [false, false, false, false, false] := by
  norm_num [detect_anomalies, anomalyFlag, mean, sampleVar, devSqSum, listSum]

/-! ### C5 -/

theorem listSum_replicate (n : ℕ) (c : ℚ) : listSum (List.replicate n c) = n * c := by
  induction n with
  | zero => simp [listSum]
  | succ k ih =>
      simp only [List.replicate_succ, listSum, List.foldr_cons] at *
      push_cast
      rw [ih]
      ring

theorem mean_replicate (n : ℕ) (c : ℚ) (hn : n ≠ 0) :
    mean (List.replicate n c) = c := by
  have hn' : (n : ℚ) ≠ 0 := Nat.cast_ne_zero.mpr hn
  simp [mean, listSum_replicate, hn']

theorem sampleVar_replicate (n : ℕ) (c : ℚ) :
    sampleVar (List.replicate n c) = 0 := by
  rcases Nat.eq_zero_or_pos n with h0 | hpos
  · subst h0; simp [sampleVar, devSqSum, listSum]
  · have hm : mean (List.replicate n c) = c := mean_replicate n c (Nat.not_eq_zero_of_lt hpos)
    have : (List.replicate n c).map (fun x => (x - mean (List.replicate n c)) * (x - mean (List.replicate n c)))
        = List.replicate n 0 := by
      rw [List.map_replicate, hm]
      simp
    simp [sampleVar, devSqSum, this, listSum_replicate]

/-- C5: for every constant series and every threshold, `detect_anomalies`
returns the all-false mask: the sample variance is 0, the float z-scores
are `NaN` (0/0), and `NaN > θ` is false in pandas, so the degenerate
zero-variance case yields "no anomalies" rather than a fault. -/
theorem detect_anomalies_constant_all_false (θ c : ℚ) (n : ℕ) :
    detect_anomalies θ (List.replicate n c) = List.replicate n false := by
  unfold detect_anomalies
  rw [sampleVar_replicate, List.map_replicate]
  have : anomalyFlag θ (mean (List.replicate n c)) 0 c = false := by
    simp [anomalyFlag]
  rw [this]

/-! ### C6 — threshold monotonicity

The claim says the detector flags *strictly* more points as θ decreases.
Strictness fails (a constant series flags nothing at every threshold);
the weak form holds: every point flagged at the larger threshold is
flagged at the smaller one, and for every θ at least the series length
the mask is all false. -/

theorem listSum_map_nonneg (f : ℚ → ℚ) (hf : ∀ y, 0 ≤ f y) (xs : List ℚ) :
    0 ≤ listSum (xs.map f) := by
  induction xs with
  | nil => simp [listSum]
  | cons y ys ih =>
      simp only [List.map_cons, listSum, List.foldr_cons] at *
      have := hf y
      linarith

theorem le_listSum_map (f : ℚ → ℚ) (hf : ∀ y, 0 ≤ f y) (xs : List ℚ) (x : ℚ)
    (hx : x ∈ xs) : f x ≤ listSum (xs.map f) := by
  induction xs with
  | nil => simp at hx
  | cons y ys ih =>
      simp only [List.map_cons, listSum, List.foldr_cons]
      rcases List.mem_cons.mp hx with h | h
      · subst h
        have := listSum_map_nonneg f hf ys
        simp only [listSum] at this
        linarith
      · have h1 := ih h
        have h2 := hf y
        simp only [listSum] at h1
        linarith

theorem anomalyFlag_mono {a b m v x : ℚ} (hab : a ≤ b)
    (hflag : anomalyFlag b m v x = true) : anomalyFlag a m v x = true := by
  simp only [anomalyFlag, Bool.and_eq_true, Bool.or_eq_true, decide_eq_true_eq] at *
  obtain ⟨hv, hcase⟩ := hflag
  refine ⟨hv, ?_⟩
  rcases lt_or_le a 0 with ha | ha
  · exact Or.inl ha
  · right
    rcases hcase with hb | hb
    · linarith
    · have haa : a * a ≤ b * b := mul_le_mul hab hab ha (le_trans ha hab)
      have hb2 : a * a * v ≤ b * b * v := mul_le_mul_of_nonneg_right haa hv.le
      linarith

theorem anomalyFlag_vanish (xs : List ℚ) (θ x : ℚ) (hx : x ∈ xs)
    (hθ : (xs.length : ℚ) ≤ θ) :
    anomalyFlag θ (mean xs) (sampleVar xs) x = false := by
  by_cases hv : 0 < sampleVar xs
  · have hS : 0 ≤ devSqSum xs :=
      listSum_map_nonneg _ (fun y => mul_self_nonneg _) xs
    have hdd : (x - mean xs) * (x - mean xs) ≤ devSqSum xs :=
      le_listSum_map _ (fun y => mul_self_nonneg _) xs x hx
    set d : ℚ := (xs.length : ℚ) - 1 with hdef
    by_cases hd : d ≤ 0
    · exfalso
      have : sampleVar xs ≤ 0 := by
        rw [sampleVar, ← hdef]
        exact div_nonpos_iff.mpr (Or.inl ⟨hS, hd⟩)
      linarith
    · push_neg at hd
      have hSv : devSqSum xs = sampleVar xs * d := by
        rw [sampleVar, ← hdef]
        field_simp
      have hn : (0:ℚ) ≤ (xs.length : ℚ) := Nat.cast_nonneg _
      have hθ0 : 0 ≤ θ := le_trans hn hθ
      have hθd : d + 1 ≤ θ := by
        rw [hdef]; linarith
      have key : (x - mean xs) * (x - mean xs) ≤ θ * θ * sampleVar xs := by
        have h2 : (d + 1) * (d + 1) ≤ θ * θ :=
          mul_le_mul hθd hθd (by linarith) hθ0
        have h3 : d ≤ θ * θ := by nlinarith [sq_nonneg d]
        have h4 : d * sampleVar xs ≤ θ * θ * sampleVar xs :=
          mul_le_mul_of_nonneg_right h3 hv.le
        have hcomm : sampleVar xs * d = d * sampleVar xs := mul_comm _ _
        linarith
      simp only [anomalyFlag, Bool.and_eq_true, Bool.or_eq_true, decide_eq_true_eq]
      simp only [Bool.and_eq_false_iff]
      right
      simp only [Bool.or_eq_false_iff, decide_eq_false_iff_not, not_lt]
      exact ⟨hθ0, key⟩
  · simp [anomalyFlag, hv]

/-- C6 counterexample: the claim as stated ("flags strictly more points as
θ decreases") is false: on the constant series `[0, 0]`, thresholds 1 and 2
flag exactly the same number of points (zero), although `1 < 2`. -/
theorem detect_strict_mono_cex :
    (1:ℚ) < 2 ∧
      ¬ ((detect_anomalies 2 [0, 0]).count true <
          (detect_anomalies 1 [0, 0]).count true) := by
  constructor
  · norm_num
  · norm_num [detect_anomalies, anomalyFlag, mean, sampleVar, devSqSum, listSum]

/-- C6 (amended): for every series, decreasing the threshold flags a
superset of the points (weak monotonicity: every point flagged at
threshold `b` is still flagged at any `a ≤ b`), and for every threshold at
least the series length the mask is all false (so as θ → ∞ zero points
are flagged). -/
theorem detect_anomalies_mono_vanish (xs : List ℚ) (a b θ : ℚ)
    (hab : a ≤ b) (hθ : (xs.length : ℚ) ≤ θ) :
    ((detect_anomalies b xs).zip (detect_anomalies a xs)).all
        (fun p => !p.1 || p.2) = true
      ∧ detect_anomalies θ xs = List.replicate xs.length false := by
  constructor
  · rw [detect_anomalies, detect_anomalies, List.zip_map', List.all_eq_true]
    intro p hp
    obtain ⟨x, hx, rfl⟩ := List.mem_map.mp hp
    simp only [Bool.or_eq_true, Bool.not_eq_true']
    by_cases hb : anomalyFlag b (mean xs) (sampleVar xs) x = true
    · exact Or.inr (anomalyFlag_mono hab hb)
    · exact Or.inl (by simpa using hb)
  · rw [detect_anomalies]
    have hlen : (xs.map (anomalyFlag θ (mean xs) (sampleVar xs))).length = xs.length :=
      List.length_map _ _
    rw [← hlen]
    apply List.eq_replicate_length.mpr
    intro y hy
    obtain ⟨x, hx, rfl⟩ := List.mem_map.mp hy
    exact anomalyFlag_vanish xs θ x hx hθ

/-- C6 witness: the monotonicity-and-vanishing theorem evaluated on the
concrete series `[0, 10, 0]` with thresholds `a = 1 ≤ b = 2` and
vanishing threshold `θ = 5 ≥ 3`. -/
theorem detect_anomalies_mono_vanish_witness :
    (1:ℚ) ≤ 2 ∧ (([0, 10, 0] : List ℚ).length : ℚ) ≤ 5 ∧
      (((detect_anomalies 2 [0, 10, 0]).zip (detect_anomalies 1 [0, 10, 0])).all
          (fun p => !p.1 || p.2) = true
        ∧ detect_anomalies 5 [0, 10, 0] = List.replicate ([0, 10, 0] : List ℚ).length false) :=
  ⟨by norm_num, by norm_num,
    detect_anomalies_mono_vanish [0, 10, 0] 1 2 5 (by norm_num) (by norm_num)⟩

/-! ## Series rescaling — `src/data_utils.py`, `generate_consumption`
lines 188–192

When a positive yearly total is known for a region, the source computes
`target_total = yearly_total * (h_len / hrs_in_year)` with
`hrs_in_year = 365 * 24`, `factor = target_total / series.sum()`, and
rescales `series * factor`. -/

def rescaleSeries (total : ℚ) (hLen : ℕ) (raw : List ℚ) : List ℚ :=
  let target := total * ((hLen : ℚ) / (365 * 24))
  let factor := target / listSum raw
  raw.map (fun x => x * factor)

theorem listSum_map_mul (f : ℚ) (xs : List ℚ) :
    listSum (xs.map (fun x => x * f)) = listSum xs * f := by
  induction xs with
  | nil => simp [listSum]
  | cons y ys ih =>
      simp only [List.map_cons, listSum, List.foldr_cons] at *
      rw [ih]
      ring

/-- C4: rescaling a raw series with nonzero window sum to a positive
yearly total `T` over a window of `H` hours, then summing the rescaled
window and extrapolating to a full year (multiplying by
`hours_in_year / H`), recovers `T` — exactly, in the rational embedding
of the float arithmetic. -/
theorem rescale_roundtrip (raw : List ℚ) (T : ℚ) (H : ℕ)
    (hlen : raw.length = H) (hs : listSum raw ≠ 0) (hT : 0 < T) (hH : 0 < H) :
    listSum (rescaleSeries T H raw) * ((365 * 24 : ℚ) / (H : ℚ)) = T := by
  have hHq : (H : ℚ) ≠ 0 := Nat.cast_ne_zero.mpr hH.ne'
  simp only [rescaleSeries, listSum_map_mul]
  field_simp
  ring

/-- C4 witness: the round-trip theorem evaluated at the concrete raw
series `[1, 2, 3]` (window `H = 3`, sum 6) and yearly total `T = 5`. -/
theorem rescale_roundtrip_witness :
    ([1, 2, 3] : List ℚ).length = 3 ∧ listSum [1, 2, 3] ≠ 0 ∧ (0:ℚ) < 5 ∧ 0 < 3 ∧
      listSum (rescaleSeries 5 3 [1, 2, 3]) * ((365 * 24 : ℚ) / (3 : ℚ)) = 5 :=
  ⟨by norm_num, by norm_num [listSum], by norm_num, by norm_num,
    rescale_roundtrip [1, 2, 3] 5 3 (by norm_num) (by norm_num [listSum])
      (by norm_num) (by norm_num)⟩

/-! ## Region-name normalization — `_normalize`

Two variants exist in the repository:
`src/data_utils.py` line 123: NFKD-decompose, encode to ASCII dropping
non-ASCII bytes, decode, lowercase, and remove spaces
(`.replace(" ", "")`); `simulate_consumption.py` line 20: the same
WITHOUT the space removal.

`foldChar` embeds `unicodedata.normalize("NFKD", ·)` followed by
`.encode("ascii", "ignore")` character by character: ASCII characters map
to themselves; Latin letters with diacritics (the ones occurring in
Turkish place names) decompose into their ASCII base letter plus
combining marks, and the ASCII encoding drops the marks; characters whose
NFKD form has no ASCII base (such as the dotless `ı`, which has no
decomposition) are dropped entirely.  Characters outside this table are
modelled as dropped. -/

def foldChar (c : Char) : List Char :=
  if c.toNat < 128 then [c]
  else if c = 'ç' then ['c'] else if c = 'Ç' then ['C']
  else if c = 'ğ' then ['g'] else if c = 'Ğ' then ['G']
  else if c = 'ö' then ['o'] else if c = 'Ö' then ['O']
  else if c = 'ş' then ['s'] else if c = 'Ş' then ['S']
  else if c = 'ü' then ['u'] else if c = 'Ü' then ['U']
  else if c = 'İ' then ['I']
  else if c = 'â' then ['a'] else if c = 'Â' then ['A']
  else if c = 'î' then ['i'] else if c = 'Î' then ['I']
  else if c = 'û' then ['u'] else if c = 'Û' then ['U']
  else []

/-- `_normalize` from `src/data_utils.py`: NFKD, ascii-ignore, lowercase,
remove spaces.  (After the ASCII step the string is pure ASCII, so
Python's `str.lower` agrees with `Char.toLower`.) -/
def normalizeDU (s : List Char) : List Char :=
  (((s.map foldChar).flatten).map Char.toLower).filter (fun c => c ≠ ' ')

/-- `_normalize` from `simulate_consumption.py`: NFKD, ascii-ignore,
lowercase — no whitespace removal. -/
def normalizeSim (s : List Char) : List Char :=
  ((s.map foldChar).flatten).map Char.toLower

/-- Per-character contribution to the `data_utils` normalized key. -/
def charKeyDU (c : Char) : List Char :=
  ((foldChar c).map Char.toLower).filter (fun c => c ≠ ' ')

/-- Per-character contribution to the `simulate_consumption` key. -/
def charKeySim (c : Char) : List Char :=
  (foldChar c).map Char.toLower

theorem normalizeDU_append (s t : List Char) :
    normalizeDU (s ++ t) = normalizeDU s ++ normalizeDU t := by
  simp [normalizeDU, List.map_append, List.flatten_append, List.filter_append]

theorem normalizeSim_append (s t : List Char) :
    normalizeSim (s ++ t) = normalizeSim s ++ normalizeSim t := by
  simp [normalizeSim, List.map_append, List.flatten_append]

theorem normalizeDU_cons (c : Char) (t : List Char) :
    normalizeDU (c :: t) = charKeyDU c ++ normalizeDU t := by
  simp [normalizeDU, charKeyDU, List.filter_append]

theorem normalizeSim_cons (c : Char) (t : List Char) :
    normalizeSim (c :: t) = charKeySim c ++ normalizeSim t := by
  simp [normalizeSim, charKeySim]

/-- ASCII upper/lower pairs plus the Turkish diacritic letter pairs —
pairs of characters differing only in letter case. -/
def casePairs : List (Char × Char) :=
  [('a','A'),('b','B'),('c','C'),('d','D'),('e','E'),('f','F'),('g','G'),
   ('h','H'),('i','I'),('j','J'),('k','K'),('l','L'),('m','M'),('n','N'),
   ('o','O'),('p','P'),('q','Q'),('r','R'),('s','S'),('t','T'),('u','U'),
   ('v','V'),('w','W'),('x','X'),('y','Y'),('z','Z'),
   ('ç','Ç'),('ğ','Ğ'),('ö','Ö'),('ş','Ş'),('ü','Ü'),('i','İ')]

/-- Pairs of characters differing only in a diacritic: an accented letter
and its ASCII base. -/
def diacriticPairs : List (Char × Char) :=
  [('ç','c'),('Ç','C'),('ğ','g'),('Ğ','G'),('ö','o'),('Ö','O'),
   ('ş','s'),('Ş','S'),('ü','u'),('Ü','U'),('İ','I'),
   ('â','a'),('Â','A'),('î','i'),('Î','I'),('û','u'),('Û','U')]

/-- C9 counterexample: the claim says both normalizers strip whitespace,
so two names differing only in whitespace (and case) match the same key.
The `simulate_consumption.py` variant does not strip whitespace:
`"Afyon Karahisar"` and `"Afyonkarahisar"` normalize to different keys
there. -/
theorem normalize_whitespace_cex :
    normalizeSim "Afyon Karahisar".data ≠ normalizeSim "Afyonkarahisar".data := by
  decide

/-- C9 (amended): the `data_utils.py` normalizer maps names differing
only in letter case, diacritics, or whitespace to the same key; the
`simulate_consumption.py` variant does so for case and diacritics but
keeps interior whitespace, so only the `data_utils` variant is
whitespace-insensitive. -/
theorem normalize_invariances (s t : List Char) (c c' : Char)
    (h : (c, c') ∈ casePairs ∨ (c, c') ∈ diacriticPairs) :
    normalizeDU (s ++ c :: t) = normalizeDU (s ++ c' :: t)
      ∧ normalizeSim (s ++ c :: t) = normalizeSim (s ++ c' :: t)
      ∧ normalizeDU (s ++ ' ' :: t) = normalizeDU (s ++ t) := by
  have hkey : ∀ p ∈ casePairs ++ diacriticPairs,
      charKeyDU p.1 = charKeyDU p.2 ∧ charKeySim p.1 = charKeySim p.2 := by
    decide
  have hp : (c, c') ∈ casePairs ++ diacriticPairs := by
    rcases h with h | h
    · exact List.mem_append_left _ h
    · exact List.mem_append_right _ h
  obtain ⟨hdu, hsim⟩ := hkey (c, c') hp
  refine ⟨?_, ?_, ?_⟩
  · rw [normalizeDU_append, normalizeDU_append, normalizeDU_cons, normalizeDU_cons]
    rw [hdu]
  · rw [normalizeSim_append, normalizeSim_append, normalizeSim_cons, normalizeSim_cons]
    rw [hsim]
  · rw [normalizeDU_append, normalizeDU_append, normalizeDU_cons]
    have : charKeyDU ' ' = [] := by decide
    rw [this, List.nil_append]

/-- C9 witness: the invariance theorem applied to the concrete pair
`'ü' / 'Ü'` inside the name fragments `"s" ++ · ++ "k"`. -/
theorem normalize_invariances_witness :
    (('ü','Ü') ∈ casePairs ∨ ('ü','Ü') ∈ diacriticPairs) ∧
      (normalizeDU (['s'] ++ 'ü' :: ['k']) = normalizeDU (['s'] ++ 'Ü' :: ['k'])
        ∧ normalizeSim (['s'] ++ 'ü' :: ['k']) = normalizeSim (['s'] ++ 'Ü' :: ['k'])
        ∧ normalizeDU (['s'] ++ ' ' :: ['k']) = normalizeDU (['s'] ++ ['k'])) :=
  ⟨Or.inl (by decide), normalize_invariances ['s'] ['k'] 'ü' 'Ü' (Or.inl (by decide))⟩

/-! ## Rescaling guard — `generate_consumption`, `src/data_utils.py`
lines 187–194

The source reads:
```
norm_name = _normalize(city["name"])
if norm_name in totals and totals[norm_name] > 0:
    target_total = totals[norm_name] * (h_len / hrs_in_year)
    factor = target_total / series.sum()
    series = series * factor
```
There is no guard on `series.sum() == 0`: when the sum is zero the NumPy
float division produces a non-finite factor (`inf`/`nan`, with a runtime
warning, not an exception) and the stored series is non-finite.  The
embedding returns `none` for that non-finite outcome, `some` of the
(finite, exact-rational) series otherwise. -/

def pyNormalizeName (s : String) : String := String.mk (normalizeDU s.data)

def scaleRegion (totals : List (String × ℚ)) (name : String) (hLen : ℕ)
    (raw : List ℚ) : Option (List ℚ) :=
  match totals.lookup (pyNormalizeName name) with
  | some t =>
      if 0 < t then
        if listSum raw = 0 then none
        else some (rescaleSeries t hLen raw)
      else some raw
  | none => some raw

/-- C2: the claim (and the spec) says that a region whose raw series sums
to zero is treated as un-scalable, skipping the division and falling back
to the raw series.  The code has no such guard: with a matching positive
yearly total and a zero-sum raw series `[1, -1]`, the division
`target_total / series.sum()` is performed and yields a non-finite factor
(`none` in the embedding) — in particular the result is NOT the raw-series
fallback the claim requires. -/
theorem scaleRegion_zero_sum_no_fallback :
    scaleRegion [("ankara", 100)] "Ankara" 2 [1, -1] = none
      ∧ scaleRegion [("ankara", 100)] "Ankara" 2 [1, -1] ≠ some [1, -1] := by
  have hnorm : pyNormalizeName "Ankara" = "ankara" := by decide
  have hsum : listSum [1, -1] = 0 := by norm_num [listSum]
  have h : scaleRegion [("ankara", 100)] "Ankara" 2 [1, -1] = none := by
    rw [scaleRegion, hnorm]
    simp [List.lookup, hsum]
  exact ⟨h, by rw [h]; simp⟩

/-! ## Synthetic generation — `generate_consumption`
(`src/data_utils.py` lines 163–196)

NumPy's global pseudo-random source is a deterministic state machine:
`np.random.seed(s)` sets the state to a pure function of `s`, and each
draw is a pure function of the current state, returning a value and the
successor state.  We model the state as a `ℕ` with an arbitrary concrete
transition (a linear congruential step) and draws valued in `ℚ` — the
determinism claim depends only on this state-machine structure, never on
the concrete distribution of the draws.

`sin` and `π` are not rational; the float routine
`h ↦ 20·sin(2πh/24) + 10·sin(4πh/24)` is itself a fixed deterministic
function, abstracted as the parameter `sinq` (with `sinq x` standing for
the float value of `sin(2πx)`). -/

def lcg (s : ℕ) : ℕ := (1103515245 * s + 12345) % 2147483648

/-- State written by `np.random.seed(seed)`: a pure function of the seed
alone — the previous (ambient) generator state is discarded. -/
def npSeedState (seed : ℕ) : ℕ := lcg seed

/-- One draw from `np.random.normal(·, ·)`: a value (stand-in for the
Gaussian variate) and the successor state, both pure functions of the
current state. -/
def normalDraw (s : ℕ) : ℚ × ℕ := (((s % 1000 : ℕ) : ℚ) / 100 - 5, lcg s)

/-- `np.random.normal(0, 3, size=n)`: `n` successive draws. -/
def normalDraws : ℕ → ℕ → List ℚ × ℕ
  | 0, s => ([], s)
  | n + 1, s =>
      let (x, s1) := normalDraw s
      let (xs, s2) := normalDraws n s1
      (x :: xs, s2)

/-- `base_pattern = 100 + 20*np.sin(2*np.pi*hours.hour/24)
+ 10*np.sin(4*np.pi*hours.hour/24)`; `hours.hour` is the hour of day of
the timestamp, i.e. the absolute hour modulo 24. -/
def basePattern (sinq : ℚ → ℚ) (h : ℕ) : ℚ :=
  100 + 20 * sinq (((h % 24 : ℕ) : ℚ) / 24) + 10 * sinq (2 * ((h % 24 : ℕ) : ℚ) / 24)

/-- Per-city body of the generation loop: draw the city offset, draw the
noise vector, form `base + offset + noise`, and apply the yearly-total
rescaling step. -/
def genCities (sinq : ℚ → ℚ) (hours : List ℕ) (totals : List (String × ℚ)) :
    List String → ℕ → List (String × Option (List ℚ))
  | [], _ => []
  | city :: rest, s =>
      let (offset, s1) := normalDraw s
      let (noise, s2) := normalDraws hours.length s1
      let raw := (hours.zip noise).map (fun p => basePattern sinq p.1 + offset + p.2)
      (city, scaleRegion totals city hours.length raw) :: genCities sinq hours totals rest s2

/-- `generate_consumption`: seeds the global source with 42
(`np.random.seed(42)` — discarding whatever ambient state `amb` the
process had), then generates the per-city series in list order. -/
def generate_consumption (sinq : ℚ → ℚ) (cities : List String) (hours : List ℕ)
    (totals : List (String × ℚ)) (amb : ℕ) : List (String × Option (List ℚ)) :=
  genCities sinq hours totals cities (npSeedState 42)

/-- C3: for every fixed region list, timestamp index, totals table and
sine routine, two independent runs of `generate_consumption` — starting
from arbitrary, possibly different ambient pseudo-random states — produce
identical output collections: the function reseeds with the fixed seed 42,
so the output is a pure function of (regions, hours, totals) alone. -/
theorem generate_consumption_deterministic (sinq : ℚ → ℚ) (cities : List String)
    (hours : List ℕ) (totals : List (String × ℚ)) (amb1 amb2 : ℕ) :
    generate_consumption sinq cities hours totals amb1
      = generate_consumption sinq cities hours totals amb2 := rfl

/-! ## Recommendation engine — `src/recommend.py`

A forecast table row is embedded as `(ds, yhat)` with `ds` an absolute
hour count (so `df["ds"].dt.hour` is `ds % 24`) and `yhat : ℚ`.  The set
of columns of the incoming DataFrame is carried separately as a
`List String` for the validation step.  Python faults (`raise`, and the
`int()` conversion of a non-finite float) surface as `Except.error`. -/

def hourOf (ds : ℕ) : ℕ := ds % 24

/-- `yhat` values of the rows whose timestamp falls in hour-of-day `h`. -/
def rowsAtHour (rows : List (ℕ × ℚ)) (h : ℕ) : List ℚ :=
  (rows.filter (fun r => hourOf r.1 == h)).map Prod.snd

/-- `df.groupby("hour")["yhat"].mean()` evaluated at hour `h`. -/
def hourlyMean (rows : List (ℕ × ℚ)) (h : ℕ) : ℚ := mean (rowsAtHour rows h)

/-- Hours of day present in the table, in ascending order — pandas
`groupby` sorts the group keys. -/
def presentHours (rows : List (ℕ × ℚ)) : List ℕ :=
  (List.range 24).filter (fun h => rows.any (fun r => hourOf r.1 == h))

/-- Fold step for `Series.idxmax`: strict `<` keeps the first of equal
maxima, matching pandas' first-occurrence tie-break. -/
def idxStepMax (rows : List (ℕ × ℚ)) (acc : Option ℕ) (h : ℕ) : Option ℕ :=
  match acc with
  | none => some h
  | some b => if hourlyMean rows b < hourlyMean rows h then some h else some b

/-- Fold step for `Series.idxmin`. -/
def idxStepMin (rows : List (ℕ × ℚ)) (acc : Option ℕ) (h : ℕ) : Option ℕ :=
  match acc with
  | none => some h
  | some b => if hourlyMean rows h < hourlyMean rows b then some h else some b

/-- `int(hourly_mean.idxmax())`: first hour attaining the maximal grouped
mean; `none` iff the table is empty (pandas raises `ValueError`). -/
def idxmaxHour (rows : List (ℕ × ℚ)) : Option ℕ :=
  (presentHours rows).foldl (idxStepMax rows) none

/-- `int(hourly_mean.idxmin())`. -/
def idxminHour (rows : List (ℕ × ℚ)) : Option ℕ :=
  (presentHours rows).foldl (idxStepMin rows) none

/-- Python `int(float)`: truncation toward zero. -/
def truncQ (q : ℚ) : ℤ := Int.tdiv q.num (q.den : ℤ)

/-- `first_24 = df.iloc[:24]["yhat"].mean()`. -/
def first24Mean (rows : List (ℕ × ℚ)) : ℚ := mean ((rows.take 24).map Prod.snd)

/-- `last_24 = df.iloc[-24:]["yhat"].mean()` (all rows when fewer
than 24). -/
def last24Mean (rows : List (ℕ × ℚ)) : ℚ :=
  mean ((rows.drop (rows.length - 24)).map Prod.snd)

/-- `trend_pct = int((last_24 - first_24) / first_24 * 100)`. -/
def trendPct (rows : List (ℕ × ℚ)) : ℤ :=
  truncQ ((last24Mean rows - first24Mean rows) / first24Mean rows * 100)

/-- `peak_ratio = hourly_mean.loc[peak] / max(hourly_mean.loc[off], 1e-6)`. -/
def peakOverOff (rows : List (ℕ × ℚ)) (ph oh : ℕ) : ℚ :=
  hourlyMean rows ph / max (hourlyMean rows oh) (1 / 1000000)

/-- `(hour - 1) % 24` with Python modulo (always non-negative). -/
def peakDisplayStart (p : ℕ) : ℕ := (p + 23) % 24

/-- `(hour + 1) % 24`. -/
def peakDisplayEnd (p : ℕ) : ℕ := (p + 1) % 24

/-- The four mutually exclusive base categories plus the two overlay
categories of the template pool. -/
inductive PeakCat where
  | midday
  | evening
  | morning
  | flat
  | rising
  | highPeak
deriving DecidableEq

/-- The if/elif chain of `generate_suggestions` lines 72–79. -/
def classifyPeak (p : ℕ) : PeakCat :=
  if 11 ≤ p ∧ p ≤ 16 then .midday
  else if 17 ≤ p ∧ p ≤ 22 then .evening
  else if 6 ≤ p ∧ p ≤ 10 then .morning
  else .flat

/-- Values substituted into the templates by `.format(...)`. -/
structure Subst where
  peakStart : ℕ
  peakEnd : ℕ
  offStart : ℕ
  offEnd : ℕ
  trend : ℤ
  peakRat : ℤ
  city : String

/-- `{x:02d}`: zero-padded two-digit rendering. -/
def fmt2 (n : ℕ) : String := if n < 10 then "0" ++ toString n else toString n

/-- `_template_pool()`: each Turkish template string becomes a rendering
function `Subst → String`, with each `{...}` placeholder replaced by the
corresponding substituted value (typographic apostrophes escaped). -/
def templatePool : PeakCat → List (Subst → String)
  | .midday =>
      [fun v => "Öğle pikinde (" ++ fmt2 v.peakStart ++ ":00–" ++ fmt2 v.peakEnd ++
        ":00) klimayı azaltmak için evi sabahın serin saatlerinde önceden soğutun.",
       fun v => "Çamaşır/bulaşık makinelerini gece " ++ fmt2 v.offStart ++ ":00–" ++
        fmt2 v.offEnd ++ ":00 tarifesinde çalıştırarak öğle pik tüketiminden kaçının.",
       fun v => v.city ++ "’de güneş paneliniz varsa öğlen fazlasını şebekeye satarak en yüksek geri dönüşü alın.",
       fun v => "Öğle pikini dengelemek için ofis cihazlarını zamanlayıcı ile sabah " ++
        fmt2 v.offStart ++ ":00 sonrası çalıştırın.",
       fun v => "Soğutmayı " ++ fmt2 v.peakStart ++ ":00’dan önce tamamlayarak öğle tarifesindeki pahalı kWh’lerden kaçının."]
  | .evening =>
      [fun v => "Akşam pikine (" ++ fmt2 v.peakStart ++ ":00–" ++ fmt2 v.peakEnd ++
        ":00) girmeden yemeği erken pişirip yüksek güçlü aletleri gece " ++ fmt2 v.offStart ++ ":00 sonrası çalıştırın.",
       fun v => "Elektrikli araç şarjını " ++ fmt2 v.offStart ++ ":00–" ++ fmt2 v.offEnd ++
        ":00 düşük tarife saatlerine kaydırın; şebeke yükü azalsın fatura düşsün.",
       fun v => "Akşam pik oranı yüksek olduğu için " ++ v.city ++ "’de akıllı prizlerle TV/konsol kullanımını " ++
        fmt2 v.peakEnd ++ ":00 sonrası erteleyin.",
       fun v => "Yemek pişirmede Airfryer kullanarak " ++ fmt2 v.peakStart ++ ":00–" ++
        fmt2 v.peakEnd ++ ":00 arası fırın yükünü %30 azaltın.",
       fun v => "Su ısıtıcısını zamanlayıcıyla gece " ++ fmt2 v.offStart ++ ":00’da devreye alarak akşam pikini düşürün."]
  | .morning =>
      [fun v => "Sabah pikinde (" ++ fmt2 v.peakStart ++ ":00–" ++ fmt2 v.peakEnd ++
        ":00) kettle/termosifon yerine geceden su ısıtın; tüketimi " ++ fmt2 v.offStart ++ ":00 sonrası dağıtın.",
       fun _ => "Yoğun sabah saatleri yerine elektrikli süpürgeyi öğleden sonra kullanarak talep profilinizi düzleştirin.",
       fun v => "Isıtıcıyı " ++ fmt2 v.offStart ++ ":00’dan sonra çalıştırıp sabah piki öncesi evi ısıtın.",
       fun _ => "Sabah duşu için boyleri gece tarifesinde ısıtıp sabah pikindeki direnci devre dışı bırakın."]
  | .flat =>
      [fun v => "Geceleri " ++ fmt2 v.offStart ++ ":00–" ++ fmt2 v.offEnd ++
        " arasında ağır cihaz kullanımını toplamak faturanızı düşürür.",
       fun _ => "Stand-by cihazları yatmadan önce kapatın; pik dışı saatlerde bile gereksiz tüketimden kaçınırsınız.",
       fun v => v.city ++ "’de tüketim dalgalı değil; tarife tasarrufu için faturanızı tek zamanlı yerine çok zamanlıya geçirmeyi düşünün.",
       fun _ => "Pik farkı düşük olduğu için tasarrufu cihaz verimliliği ve stand-by azaltımıyla sağlayın."]
  | .rising =>
      [fun v => "Son 3 günde tüketiminiz % " ++ toString v.trend ++
        " arttı; enerji yoğun işlemleri erteleyip verimliliği artırarak artışı sınırlayın.",
       fun v => "Talep artış trendine karşı tarifeleri gözden geçirip çok zamanlı plana geçmeyi değerlendirin (artış %" ++
        toString v.trend ++ ")."]
  | .highPeak =>
      [fun v => "Pik/off-peak oranı %" ++ toString v.peakRat ++ " olduğundan cihazları gece " ++
        fmt2 v.offStart ++ ":00–" ++ fmt2 v.offEnd ++ ":00 arasında çalıştırmak büyük tasarruf sağlar.",
       fun v => "Tüketiminiz pik saate göre %" ++ toString v.peakRat ++ " kat artıyor; akıllı prizlerle otomatik zamanlama yapın."]

/-- Overlay categories: `high_peak_ratio` when the peak-to-off-peak ratio
exceeds 2, `rising` when the trend percentage exceeds 5. -/
def extraCats (rows : List (ℕ × ℚ)) (ph oh : ℕ) : List PeakCat :=
  (if 2 < peakOverOff rows ph oh then [PeakCat.highPeak] else [])
    ++ (if 5 < trendPct rows then [PeakCat.rising] else [])

/-- `templates = _template_pool()[category] + sum((_template_pool()[k]
for k in extra_keys), [])`. -/
def suggestTemplates (rows : List (ℕ × ℚ)) (ph oh : ℕ) : List (Subst → String) :=
  templatePool (classifyPeak ph) ++ ((extraCats rows ph oh).map templatePool).flatten

/-- The record handed to `.format(...)`. -/
def suggestSubst (rows : List (ℕ × ℚ)) (ph oh : ℕ) (city : Option String) : Subst :=
  ⟨peakDisplayStart ph, peakDisplayEnd ph, peakDisplayStart oh, peakDisplayEnd oh,
    trendPct rows, truncQ (peakOverOff rows ph oh), city.getD "Şehriniz"⟩

/-- `random.sample(templates, k)`: `k` distinct elements of the pool,
drawn as a pure function of the ambient Mersenne-Twister state `s`
(modelled as a state-determined rotation).  The claims depend only on the
result being `k` elements of the pool. -/
def pySample {α : Type} (s : ℕ) (l : List α) (k : ℕ) : List α := (l.rotate s).take k

/-- `random.sample(templates, k=2 if len(templates) >= 2 else
len(templates))`, then render each chosen template. -/
def chooseRender (s : ℕ) (templates : List (Subst → String)) (v : Subst) : List String :=
  (pySample s templates (if 2 ≤ templates.length then 2 else templates.length)).map
    (fun t => t v)

/-- The body of `generate_suggestions` after validation.  Pandas raises on
`idxmax`/`idxmin` of an empty grouped series; Python `int()` raises on the
non-finite float `(last-first)/first` when `first == 0` (NumPy division by
zero yields `inf`/`nan`, not an exception). -/
def suggestBody (rows : List (ℕ × ℚ)) (city : Option String) (s : ℕ) :
    Except String (List String) :=
  match idxmaxHour rows, idxminHour rows with
  | some ph, some oh =>
      if first24Mean rows = 0 then
        .error "cannot convert non-finite trend to integer"
      else
        .ok (chooseRender s (suggestTemplates rows ph oh) (suggestSubst rows ph oh city))
  | _, _ => .error "attempt to get argmax of an empty sequence"

def validationMsg : String := "forecast_df must contain \x27ds\x27 and \x27yhat\x27 columns"

/-- `generate_suggestions(forecast_df, city)`: raise unless both `ds` and
`yhat` columns are present, then compute the suggestion set. -/
def generate_suggestions (cols : List String) (rows : List (ℕ × ℚ))
    (city : Option String) (s : ℕ) : Except String (List String) :=
  if "ds" ∈ cols ∧ "yhat" ∈ cols then suggestBody rows city s
  else .error validationMsg

/-! ### C7 — peak-hour classification -/

/-- C7: `generate_suggestions` classifies the peak hour into exactly one
of four mutually exclusive categories by the fixed ranges morning [6,10],
midday [11,16], evening [17,22], otherwise flat; and for every forecast
table whose hourly means peak (first-occurrence argmax) at hour 19 the
category is evening with display window `peak_start = 18`,
`peak_end = 20`. -/
theorem classifyPeak_ranges_and_evening_example :
    (∀ h : ℕ, h < 24 →
      ((classifyPeak h = PeakCat.morning ↔ (6 ≤ h ∧ h ≤ 10))
        ∧ (classifyPeak h = PeakCat.midday ↔ (11 ≤ h ∧ h ≤ 16))
        ∧ (classifyPeak h = PeakCat.evening ↔ (17 ≤ h ∧ h ≤ 22))
        ∧ (classifyPeak h = PeakCat.flat ↔ ¬(6 ≤ h ∧ h ≤ 22))))
    ∧ (∀ (rows : List (ℕ × ℚ)) (ph : ℕ), idxmaxHour rows = some ph → ph = 19 →
        classifyPeak ph = PeakCat.evening
          ∧ peakDisplayStart ph = 18 ∧ peakDisplayEnd ph = 20) := by
  constructor
  · decide
  · rintro rows ph _ rfl
    exact ⟨by decide, by decide, by decide⟩

/-- C7 witness: a concrete two-row table whose grouped hourly means are 1
at hour 0 and 5 at hour 19, so the argmax is hour 19; the classification
theorem applied there. -/
theorem classifyPeak_evening_example_witness :
    (19 : ℕ) < 24
      ∧ idxmaxHour [((0:ℕ), (1:ℚ)), ((19:ℕ), (5:ℚ))] = some 19
      ∧ (classifyPeak 19 = PeakCat.evening ↔ (17 ≤ 19 ∧ 19 ≤ 22))
      ∧ (classifyPeak 19 = PeakCat.evening
          ∧ peakDisplayStart 19 = 18 ∧ peakDisplayEnd 19 = 20) := by
  have hp : presentHours [((0:ℕ), (1:ℚ)), ((19:ℕ), (5:ℚ))] = [0, 19] := by decide
  have hidx : idxmaxHour [((0:ℕ), (1:ℚ)), ((19:ℕ), (5:ℚ))] = some 19 := by
    rw [idxmaxHour, hp]
    simp only [List.foldl_cons, List.foldl_nil, idxStepMax]
    norm_num [hourlyMean, rowsAtHour, mean, listSum, hourOf]
  exact ⟨by decide, hidx,
    (classifyPeak_ranges_and_evening_example.1 19 (by decide)).2.2.1,
    (classifyPeak_ranges_and_evening_example.2 [((0:ℕ), (1:ℚ)), ((19:ℕ), (5:ℚ))] 19 hidx rfl)⟩

/-! ### C8 — validation fault iff a required column is missing -/

theorem suggestBody_nomax (rows : List (ℕ × ℚ)) (city : Option String) (s : ℕ)
    (h : idxmaxHour rows = none) :
    suggestBody rows city s = Except.error "attempt to get argmax of an empty sequence" := by
  rw [suggestBody, h]

theorem suggestBody_nomin (rows : List (ℕ × ℚ)) (city : Option String) (s : ℕ)
    (ph : ℕ) (hph : idxmaxHour rows = some ph) (h : idxminHour rows = none) :
    suggestBody rows city s = Except.error "attempt to get argmax of an empty sequence" := by
  rw [suggestBody, hph, h]

theorem suggestBody_some (rows : List (ℕ × ℚ)) (city : Option String) (s : ℕ)
    (ph oh : ℕ) (hph : idxmaxHour rows = some ph) (hoh : idxminHour rows = some oh) :
    suggestBody rows city s =
      if first24Mean rows = 0 then
        Except.error "cannot convert non-finite trend to integer"
      else
        Except.ok (chooseRender s (suggestTemplates rows ph oh)
          (suggestSubst rows ph oh city)) := by
  rw [suggestBody, hph, hoh]

theorem suggestBody_ne_validation (rows : List (ℕ × ℚ)) (city : Option String)
    (s : ℕ) : suggestBody rows city s ≠ Except.error validationMsg := by
  cases hmax : idxmaxHour rows with
  | none =>
      rw [suggestBody_nomax rows city s hmax]
      intro hc
      rw [Except.error.injEq] at hc
      exact absurd hc (by decide)
  | some ph =>
      cases hmin : idxminHour rows with
      | none =>
          rw [suggestBody_nomin rows city s ph hmax hmin]
          intro hc
          rw [Except.error.injEq] at hc
          exact absurd hc (by decide)
      | some oh =>
          rw [suggestBody_some rows city s ph oh hmax hmin]
          by_cases hf : first24Mean rows = 0
          · rw [if_pos hf]
            intro hc
            rw [Except.error.injEq] at hc
            exact absurd hc (by decide)
          · rw [if_neg hf]
            intro hc
            exact Except.noConfusion hc

/-- C8: `generate_suggestions` raises the missing-fields validation fault
if and only if the input table lacks the `ds` column or the `yhat`
column; whenever both are present the validation fault is not raised
(any fault on such a table is a different, downstream one). -/
theorem generate_suggestions_validation_iff (cols : List String)
    (rows : List (ℕ × ℚ)) (city : Option String) (s : ℕ) :
    generate_suggestions cols rows city s = Except.error validationMsg
      ↔ ¬ ("ds" ∈ cols ∧ "yhat" ∈ cols) := by
  by_cases h : ("ds" ∈ cols ∧ "yhat" ∈ cols)
  · rw [generate_suggestions, if_pos h]
    constructor
    · intro hc
      exact absurd hc (suggestBody_ne_validation rows city s)
    · intro hn
      exact absurd h hn
  · rw [generate_suggestions, if_neg h]
    exact ⟨fun _ => h, fun _ => rfl⟩

/-! ### C10 — exactly two rendered suggestions -/

theorem foldl_optStep_some (f : Option ℕ → ℕ → Option ℕ)
    (hf : ∀ b h, ∃ c, f (some b) h = some c) :
    ∀ (l : List ℕ) (b : ℕ), ∃ c, l.foldl f (some b) = some c := by
  intro l
  induction l with
  | nil => exact fun b => ⟨b, rfl⟩
  | cons h t ih =>
      intro b
      rw [List.foldl_cons]
      obtain ⟨c, hc⟩ := hf b h
      rw [hc]
      exact ih c

theorem idxStepMax_some (rows : List (ℕ × ℚ)) (b h : ℕ) :
    ∃ c, idxStepMax rows (some b) h = some c := by
  rw [idxStepMax]
  split <;> exact ⟨_, rfl⟩

theorem idxStepMin_some (rows : List (ℕ × ℚ)) (b h : ℕ) :
    ∃ c, idxStepMin rows (some b) h = some c := by
  rw [idxStepMin]
  split <;> exact ⟨_, rfl⟩

theorem presentHours_ne_nil (r : ℕ × ℚ) (rest : List (ℕ × ℚ)) :
    hourOf r.1 ∈ presentHours (r :: rest) := by
  rw [presentHours, List.mem_filter]
  constructor
  · exact List.mem_range.mpr (Nat.mod_lt _ (by norm_num))
  · simp [List.any_cons]

theorem idxmaxHour_isSome (rows : List (ℕ × ℚ)) (hne : rows ≠ []) :
    ∃ ph, idxmaxHour rows = some ph := by
  obtain ⟨r, rest, rfl⟩ : ∃ r rest, rows = r :: rest := by
    cases rows with
    | nil => exact absurd rfl hne
    | cons a l => exact ⟨a, l, rfl⟩
  have hmem := presentHours_ne_nil r rest
  rw [idxmaxHour]
  cases hph : presentHours (r :: rest) with
  | nil => rw [hph] at hmem; simp at hmem
  | cons h t =>
      rw [List.foldl_cons]
      have hstep : idxStepMax (r :: rest) none h = some h := rfl
      rw [hstep]
      exact foldl_optStep_some _ (idxStepMax_some (r :: rest)) t h

theorem idxminHour_isSome (rows : List (ℕ × ℚ)) (hne : rows ≠ []) :
    ∃ oh, idxminHour rows = some oh := by
  obtain ⟨r, rest, rfl⟩ : ∃ r rest, rows = r :: rest := by
    cases rows with
    | nil => exact absurd rfl hne
    | cons a l => exact ⟨a, l, rfl⟩
  have hmem := presentHours_ne_nil r rest
  rw [idxminHour]
  cases hph : presentHours (r :: rest) with
  | nil => rw [hph] at hmem; simp at hmem
  | cons h t =>
      rw [List.foldl_cons]
      have hstep : idxStepMin (r :: rest) none h = some h := rfl
      rw [hstep]
      exact foldl_optStep_some _ (idxStepMin_some (r :: rest)) t h

theorem chooseRender_length (s : ℕ) (templates : List (Subst → String)) (v : Subst)
    (h2 : 2 ≤ templates.length) : (chooseRender s templates v).length = 2 := by
  rw [chooseRender, if_pos h2, List.length_map, pySample, List.length_take,
    List.length_rotate]
  omega

theorem classifyPeak_mem (p : ℕ) :
    classifyPeak p = PeakCat.midday ∨ classifyPeak p = PeakCat.evening
      ∨ classifyPeak p = PeakCat.morning ∨ classifyPeak p = PeakCat.flat := by
  unfold classifyPeak
  split_ifs <;> simp

theorem templatePool_classify_len (p : ℕ) :
    4 ≤ (templatePool (classifyPeak p)).length := by
  rcases classifyPeak_mem p with h | h | h | h <;> rw [h] <;> decide

/-- C10 counterexample: the claim as stated quantifies over *every* table
containing the `ds` and `yhat` columns, but on the empty table (which has
both columns) the code raises from `idxmax` on an empty grouped series
instead of returning two suggestion strings. -/
theorem generate_suggestions_empty_table_error :
    generate_suggestions ["ds", "yhat"] [] none 0
      = Except.error "attempt to get argmax of an empty sequence" := by
  rfl

/-- C10 (amended): for every forecast table that contains the `ds` and
`yhat` columns, is nonempty, and whose first-24-row mean is nonzero (so
the `int()` trend conversion does not fault), `generate_suggestions`
returns exactly 2 rendered suggestion strings: every base category's pool
has at least 4 templates and overlays only append, so the
fewer-than-requested fallback branch is unreachable. -/
theorem generate_suggestions_two_suggestions (cols : List String)
    (rows : List (ℕ × ℚ)) (city : Option String) (s : ℕ)
    (hds : "ds" ∈ cols) (hyh : "yhat" ∈ cols) (hne : rows ≠ [])
    (hf : first24Mean rows ≠ 0) :
    ∃ out, generate_suggestions cols rows city s = Except.ok out
      ∧ out.length = 2 := by
  obtain ⟨ph, hph⟩ := idxmaxHour_isSome rows hne
  obtain ⟨oh, hoh⟩ := idxminHour_isSome rows hne
  rw [generate_suggestions, if_pos ⟨hds, hyh⟩,
    suggestBody_some rows city s ph oh hph hoh, if_neg hf]
  refine ⟨_, rfl, ?_⟩
  apply chooseRender_length
  have h4 : 4 ≤ (templatePool (classifyPeak ph)).length := templatePool_classify_len ph
  have hle : (templatePool (classifyPeak ph)).length
      ≤ (suggestTemplates rows ph oh).length := by
    rw [suggestTemplates, List.length_append]
    omega
  omega

/-- C10 witness: the amended theorem applied to the concrete one-row table
`[(0, 1)]` with both required columns present. -/
theorem generate_suggestions_two_suggestions_witness :
    "ds" ∈ ["ds", "yhat"] ∧ "yhat" ∈ ["ds", "yhat"]
      ∧ ([((0:ℕ), (1:ℚ))] : List (ℕ × ℚ)) ≠ []
      ∧ first24Mean [((0:ℕ), (1:ℚ))] ≠ 0
      ∧ ∃ out, generate_suggestions ["ds", "yhat"] [((0:ℕ), (1:ℚ))] none 0
          = Except.ok out ∧ out.length = 2 :=
  ⟨by decide, by decide, by simp,
    by norm_num [first24Mean, mean, listSum],
    generate_suggestions_two_suggestions ["ds", "yhat"] [((0:ℕ), (1:ℚ))] none 0
      (by decide) (by decide) (by simp)
      (by norm_num [first24Mean, mean, listSum])⟩

end Akillisayac
